import Mathlib

/-!
Verification of the frame-extraction backend (src/video_to_frames.js and
src/server.js) against its natural-language specification.

The JavaScript code is shallowly embedded: numbers that stay in the exact
domain of the claims are modelled as rationals and integers, JavaScript's
special numeric values (NaN and the infinities) by an explicit `JsNumber`
type, JSON values by `JsVal`, and each asynchronous completion handler by a
pure function from the data it receives (exit code, parsed payload) to a
`JsOutcome` that records whether the enclosing promise resolves, rejects,
or the handler raises an uncaught exception.
-/

/-- A JavaScript number as it occurs in this program: NaN, the two
infinities, or a finite value (modelled exactly as a rational). Negative
zero is not distinguished from zero; none of the code under verification
can tell them apart except through division, noted at `jsDiv`. -/
inductive JsNumber where
  | nan : JsNumber
  | inf : JsNumber
  | ninf : JsNumber
  | fin (q : ℚ) : JsNumber
deriving DecidableEq, Repr

/-- JavaScript division on `JsNumber`, following IEEE-754 rules on the
exact values used here: NaN is absorbing, finite / 0 gives a signed
infinity (NaN when the numerator is also 0), infinity / infinity gives
NaN. Because negative zero is not modelled, finite / (-0) is returned as
if the divisor were +0; the probed strings in this program never produce
a negative zero. -/
def jsDiv : JsNumber → JsNumber → JsNumber
  | .nan, _ => .nan
  | _, .nan => .nan
  | .inf, .inf => .nan
  | .inf, .ninf => .nan
  | .ninf, .inf => .nan
  | .ninf, .ninf => .nan
  | .inf, .fin b => if 0 ≤ b then .inf else .ninf
  | .ninf, .fin b => if 0 ≤ b then .ninf else .inf
  | .fin _, .inf => .fin 0
  | .fin _, .ninf => .fin 0
  | .fin a, .fin b =>
      if b = 0 then (if a = 0 then .nan else if 0 < a then .inf else .ninf)
      else .fin (a / b)

/-- Numeric value of a list of decimal digit characters. -/
def digitsVal (cs : List Char) : ℕ :=
  cs.foldl (fun acc c => 10 * acc + (c.toNat - 48)) 0

/-- Decimal fragment of JavaScript string-to-number conversion: an
unsigned decimal literal, digits with an optional fractional part
(`"30"`, `"29.97"`, `".5"`, `"5."`). Returns `none` when the characters
are not such a literal. Exponent notation and hexadecimal literals are
not modelled; no string this program feeds to numeric conversion uses
them. -/
def decLitVal (cs : List Char) : Option ℚ :=
  let intPart := cs.takeWhile (fun c => c.isDigit)
  let rest := cs.dropWhile (fun c => c.isDigit)
  match rest with
  | [] => if intPart.isEmpty then none else some ((digitsVal intPart : ℕ) : ℚ)
  | '.' :: fr =>
      if fr.all (fun c => c.isDigit) ∧ ¬(intPart.isEmpty ∧ fr.isEmpty) then
        some (((digitsVal intPart : ℕ) : ℚ) + ((digitsVal fr : ℕ) : ℚ) / 10 ^ fr.length)
      else none
  | _ => none

/-- JavaScript `ToNumber` on a string (the coercion the `/` operator in
`num / den` applies to its string operands): whitespace is trimmed, the
empty string is 0, `Infinity` forms are infinite, otherwise an optionally
signed decimal literal, and anything else is NaN. -/
def strToNumber (s : String) : JsNumber :=
  let t := (s.toList.dropWhile Char.isWhitespace).reverse.dropWhile Char.isWhitespace |>.reverse
  if t.isEmpty then .fin 0
  else if t = "Infinity".toList ∨ t = "+Infinity".toList then .inf
  else if t = "-Infinity".toList then .ninf
  else
    match t with
    | '+' :: cs => match decLitVal cs with | some q => .fin q | none => .nan
    | '-' :: cs => match decLitVal cs with | some q => .fin (-q) | none => .nan
    | cs => match decLitVal cs with | some q => .fin q | none => .nan

/-- Digit-prefix core of JavaScript `parseInt`: the value of the longest
leading run of decimal digits, or NaN when there is none. -/
def parseIntDigits (cs : List Char) : JsNumber :=
  let ds := cs.takeWhile (fun c => c.isDigit)
  if ds.isEmpty then .nan else .fin ((digitsVal ds : ℕ) : ℚ)

/-- JavaScript `parseInt` on a string (no radix argument, as called at
`parseInt(stream.nb_frames)`): leading whitespace is skipped, an optional
sign is read, then the longest decimal-digit prefix; no digits means NaN.
The `0x` hexadecimal form is not modelled; probe payloads never use it. -/
def parseIntStr (s : String) : JsNumber :=
  match s.toList.dropWhile Char.isWhitespace with
  | '+' :: cs => parseIntDigits cs
  | '-' :: cs =>
      match parseIntDigits cs with
      | .fin q => .fin (-q)
      | r => r
  | cs => parseIntDigits cs

/-- JavaScript `Math.round`: the nearest integer, half-way cases toward
positive infinity, i.e. `⌊x + 1/2⌋` on finite values. -/
def jsRound (q : ℚ) : ℤ := ⌊q + 1 / 2⌋

/-- JavaScript `Math.ceil` on finite values. -/
def jsCeil (q : ℚ) : ℤ := ⌈q⌉

/-- Frame interval computed by the CLI planner
(src/video_to_frames.js line 114):
`Math.max(1, Math.round(100 / argv.percentage))`. -/
def cliFrameInterval (percentage : ℚ) : ℤ :=
  max 1 (jsRound (100 / percentage))

/-- Effective maximum frame count computed by the CLI planner
(src/video_to_frames.js lines 117-119):
`argv.maxFrames ? Math.min(argv.maxFrames, Math.ceil(totalFrames / frameInterval)) : Math.ceil(totalFrames / frameInterval)`.
`maxFrames` is `none` when the `--maxFrames` option is absent; the
source tests the option for truthiness, so a supplied value of `0` takes
the same branch as an absent one. -/
def cliEffectiveMaxFrames (totalFrames : ℕ) (percentage : ℚ) (maxFrames : Option ℤ) : ℤ :=
  let fi := cliFrameInterval percentage
  let uncapped := jsCeil ((totalFrames : ℚ) / (fi : ℚ))
  match maxFrames with
  | some m => if m ≠ 0 then min m uncapped else uncapped
  | none => uncapped

/-- A JavaScript value as it can appear in a `JSON.parse` result (plus
`undef` for the `undefined` produced by missing properties and
out-of-range indexing). -/
inductive JsVal where
  | undef : JsVal
  | null : JsVal
  | bool (b : Bool) : JsVal
  | num (n : JsNumber) : JsVal
  | str (s : String) : JsVal
  | arr (elems : List JsVal) : JsVal
  | obj (fields : List (String × JsVal)) : JsVal

/-- First binding of a key in an object's field list (`JSON.parse` keeps
one binding per key), `undef` when the key is absent. -/
def jsObjGet : List (String × JsVal) → String → JsVal
  | [], _ => .undef
  | (k, v) :: rest, key => if k = key then v else jsObjGet rest key

/-- JavaScript property access `v.key`: throws a TypeError on `undefined`
and `null`, looks the key up on objects, and yields `undefined` on other
values (the built-in properties of primitives, such as `length`, are not
modelled; the program only reads `streams`, `r_frame_rate` and
`nb_frames`, none of which exists on a primitive). -/
def jsMember : JsVal → String → Except String JsVal
  | .undef, key => .error ("TypeError: Cannot read properties of undefined (reading " ++ key ++ ")")
  | .null, key => .error ("TypeError: Cannot read properties of null (reading " ++ key ++ ")")
  | .obj fields, key => .ok (jsObjGet fields key)
  | _, _ => .ok (.undef)

/-- JavaScript indexing `v[i]` for a numeric index: throws a TypeError on
`undefined` and `null`, yields the element or `undefined` on arrays, the
string-keyed field on objects, a one-character string on strings, and
`undefined` on remaining primitives. -/
def jsIndex : JsVal → ℕ → Except String JsVal
  | .undef, i => .error ("TypeError: Cannot read properties of undefined (reading " ++ toString i ++ ")")
  | .null, i => .error ("TypeError: Cannot read properties of null (reading " ++ toString i ++ ")")
  | .arr elems, i => .ok (elems.getD i .undef)
  | .obj fields, i => .ok (jsObjGet fields (toString i))
  | .str s, i =>
      .ok (match s.toList.get? i with
           | some c => .str (String.mk [c])
           | none => .undef)
  | _, _ => .ok (.undef)

/-- JavaScript `parseInt` applied to an arbitrary value, as in
`parseInt(stream.nb_frames)`: the argument is first converted to a
string. Strings parse directly; `undefined`, `null` and booleans
stringify to words without a digit prefix, hence NaN; NaN and the
infinities stringify to `NaN` and `Infinity`, hence NaN; a finite number
round-trips to its truncation. Arrays and objects are coarsely modelled
as NaN (`"[object Object]"` indeed parses to NaN; exotic arrays whose
joined stringification starts with a digit are not modelled — no probe
payload field in the claims is an array). -/
def jsParseInt : JsVal → JsNumber
  | .str s => parseIntStr s
  | .num (.fin q) => .fin ((if 0 ≤ q then ⌊q⌋ else -⌊-q⌋ : ℤ) : ℚ)
  | .num _ => .nan
  | _ => .nan

/-- Outcome of one asynchronous operation: the promise resolves with a
value, the promise rejects with an `Error` carrying a message, or the
completion handler raises an uncaught exception (which never settles the
promise). -/
inductive JsOutcome (α : Type) where
  | resolved (value : α) : JsOutcome α
  | rejected (message : String) : JsOutcome α
  | thrown (message : String) : JsOutcome α
deriving DecidableEq, Repr

/-- The record `getVideoInfo` resolves with:
`{ frameRate, totalFrames }` (src/video_to_frames.js line 62,
src/server.js line 151). -/
structure VideoInfo where
  frameRate : JsNumber
  totalFrames : JsNumber
deriving DecidableEq, Repr

/-- Split a character list at every occurrence of a separator character.
Always yields at least one (possibly empty) part; adjacent separators
yield empty parts, matching JavaScript `String.prototype.split` with a
one-character separator (`"a//b"` gives `["a","","b"]`, `""` gives
`[""]`). -/
def splitCharList (sep : Char) : List Char → List (List Char)
  | [] => [[]]
  | c :: cs =>
      match splitCharList sep cs with
      | [] => [[]]
      | h :: t => if c = sep then [] :: h :: t else (c :: h) :: t

/-- JavaScript `s.split(sep)` for a one-character separator. -/
def jsSplit (sep : Char) (s : String) : List String :=
  (splitCharList sep s.toList).map String.mk

/-- Frame rate computed from the `r_frame_rate` string
(src/video_to_frames.js lines 58-59, src/server.js lines 147-148):
`const [num, den] = stream.r_frame_rate.split('/'); const frameRate = num / den;`.
`split` always yields at least one part, so `num` is a string; `den` is
`undefined` when there is no `/`, and `ToNumber(undefined)` is NaN. -/
def rfrFrameRate (s : String) : JsNumber :=
  let parts := jsSplit '/' s
  let num := strToNumber (parts.headD "")
  let den := match parts.get? 1 with
             | some d => strToNumber d
             | none => .nan
  jsDiv num den

/-- The `close` handler of the ffprobe process in `getVideoInfo`,
identical in src/video_to_frames.js lines 50-63 and src/server.js lines
139-152. `code` is the subprocess exit code; `parsed` stands for the
result of `JSON.parse` on the collected stdout (`Except.error ()` when
parsing throws a SyntaxError, which the handler does not catch). A
non-zero exit code rejects the promise before anything is parsed;
otherwise the handler reads `info.streams[0]`, splits `r_frame_rate` on
`/`, divides the parts, parses `nb_frames`, and resolves. Any TypeError
from accessing a property of `undefined`/`null` or calling `split` on a
non-string escapes the handler uncaught. -/
def getVideoInfoOnClose (code : ℤ) (parsed : Except Unit JsVal) : JsOutcome VideoInfo :=
  if code ≠ 0 then .rejected "Failed to get video information"
  else
    match parsed with
    | .error _ => .thrown "SyntaxError: Unexpected token in JSON"
    | .ok info =>
      match jsMember info "streams" with
      | .error m => .thrown m
      | .ok streams =>
        match jsIndex streams 0 with
        | .error m => .thrown m
        | .ok stream =>
          match jsMember stream "r_frame_rate" with
          | .error m => .thrown m
          | .ok rfr =>
            match rfr with
            | .str s =>
              match jsMember stream "nb_frames" with
              | .error m => .thrown m
              | .ok nb => .resolved ⟨rfrFrameRate s, jsParseInt nb⟩
            | _ => .thrown "TypeError: stream.r_frame_rate.split is not a function"

/-- Node's `path.join` restricted to the joining this program performs:
the two segments are concatenated with a single `/`. Dot-segment
normalization (`path.join` would also collapse a leading `./`) is not
modelled; no claim depends on it. -/
def pathJoin (a b : String) : String :=
  if a = "" then b
  else if a.toList.getLast? = some '/' then a ++ b
  else a ++ "/" ++ b

/-- The `-vf` filter value built by the CLI extractor
(src/video_to_frames.js line 80): the template literal
`select='not(mod(n,${frameInterval}))'`. -/
def selectFilter (frameInterval : ℤ) : String :=
  "select=\x27not(mod(n," ++ toString frameInterval ++ "))\x27"

/-- `ffmpegArgs` built by the CLI extractor (src/video_to_frames.js
lines 78-89): the base list, with `['-vframes', maxFrames.toString()]`
spliced in at index 2 (directly after `-i <inputPath>`) when `maxFrames`
is truthy. `maxFrames` is `none` for an absent (undefined) argument;
`some 0` is falsy and skips the splice just as `none` does. -/
def cliFfmpegArgs (inputPath outputDir : String) (frameInterval : ℤ)
    (maxFrames : Option ℤ) : List String :=
  let base := ["-i", inputPath,
               "-vf", selectFilter frameInterval,
               "-vsync", "0",
               "-frame_pts", "1",
               "-f", "image2",
               pathJoin outputDir "frame_%d.jpg"]
  match maxFrames with
  | some m => if m ≠ 0 then base.take 2 ++ ["-vframes", toString m] ++ base.drop 2 else base
  | none => base

/-- The `close` handler of the ffmpeg process in the CLI extractor
(src/video_to_frames.js lines 98-104): exit code 0 resolves, anything
else rejects with an `Error` whose message interpolates the code. -/
def cliExtractOnClose (code : ℤ) : JsOutcome Unit :=
  if code = 0 then .resolved ()
  else .rejected ("ffmpeg process exited with code " ++ toString code)

/-- `ffmpegArgs` built by the server extractor (src/server.js lines
167-174): a fixed list with `-vframes 200` and no `-vf` filter. The
`maxFrames` parameter of `extractFrames` (the `totalFrames` value the
upload handler passes, which can be NaN) does not occur in the body. -/
def serverFfmpegArgs (inputPath outputDir : String) (maxFrames : JsNumber) : List String :=
  ["-i", inputPath,
   "-vframes", "200",
   "-vsync", "0",
   "-frame_pts", "1",
   "-f", "image2",
   pathJoin outputDir "frame_%d.jpg"]

/-- The `close` handler of the ffmpeg process in the server extractor
(src/server.js lines 183-189), identical to the CLI one. -/
def serverExtractOnClose (code : ℤ) : JsOutcome Unit :=
  if code = 0 then .resolved ()
  else .rejected ("ffmpeg process exited with code " ++ toString code)

/-- Observable behaviour of one run of the server-profile
`extractFrames(inputPath, outputDir, maxFrames)` (src/server.js lines
160-191), as a function of the exit code the spawned process later
reports: the argument list handed to ffmpeg, and the settlement of the
returned promise. -/
def serverExtractFrames (inputPath outputDir : String) (maxFrames : JsNumber)
    (exitCode : ℤ) : List String × JsOutcome Unit :=
  (serverFfmpegArgs inputPath outputDir maxFrames, serverExtractOnClose exitCode)

/-- Evaluation rule for `jsRound` at a known integer result. -/
theorem jsRound_eq_of (q : ℚ) (z : ℤ) (h1 : (z : ℚ) ≤ q + 1 / 2) (h2 : q + 1 / 2 < z + 1) :
    jsRound q = z :=
  Int.floor_eq_iff.mpr ⟨h1, h2⟩

/-- Evaluation rule for `jsCeil` at a known integer result. -/
theorem jsCeil_eq_of (q : ℚ) (z : ℤ) (h1 : (z : ℚ) - 1 < q) (h2 : q ≤ z) :
    jsCeil q = z :=
  Int.ceil_eq_iff.mpr ⟨h1, h2⟩

/-- The uncapped effective maximum is at least 1 as soon as there is a
frame: `Math.ceil` of a positive quantity is positive. -/
theorem one_le_jsCeil_frames (t : ℕ) (i : ℤ) (ht : 0 < t) (hi : 1 ≤ i) :
    1 ≤ jsCeil ((t : ℚ) / (i : ℚ)) := by
  have hipos : (0 : ℚ) < (i : ℚ) := by exact_mod_cast lt_of_lt_of_le one_pos hi
  have htpos : (0 : ℚ) < (t : ℚ) := by exact_mod_cast ht
  have := Int.ceil_pos.mpr (div_pos htpos hipos)
  unfold jsCeil
  omega

/-- C2: for every percentage in (0,100], the CLI planner's frame
interval equals `max(1, round(100 / percentage))` and is at least 1. -/
theorem cliFrameInterval_spec (p : ℚ) (hp : 0 < p) (hp100 : p ≤ 100) :
    cliFrameInterval p = max 1 (jsRound (100 / p)) ∧ 1 ≤ cliFrameInterval p :=
  ⟨rfl, le_max_left _ _⟩

/-- Witness for C2 at percentage 10. -/
theorem cliFrameInterval_spec_witness :
    0 < (10 : ℚ) ∧ (10 : ℚ) ≤ 100 ∧
      (cliFrameInterval 10 = max 1 (jsRound (100 / 10)) ∧ 1 ≤ cliFrameInterval 10) :=
  ⟨by norm_num, by norm_num, cliFrameInterval_spec 10 (by norm_num) (by norm_num)⟩

/-- C1 counterexample: at totalFrames = 1000, percentage = 100 and a
supplied cap of 0 the code computes 1000 (the truthiness test on
`argv.maxFrames` treats the supplied 0 as if no cap were given), while
the claimed formula `min(maxFramesCap, ceil(totalFrames/frameInterval))`
gives 0; in particular the claimed bound `effectiveMaxFrames <=
maxFramesCap` fails. -/
theorem cliEffectiveMaxFrames_zero_cap_cex :
    cliEffectiveMaxFrames 1000 100 (some 0) = 1000 ∧
      min (0 : ℤ) (jsCeil ((1000 : ℚ) / (cliFrameInterval 100 : ℚ))) = 0 ∧
      ¬ cliEffectiveMaxFrames 1000 100 (some 0) ≤ 0 := by
  have hr : jsRound ((100 : ℚ) / 100) = 1 := jsRound_eq_of _ _ (by norm_num) (by norm_num)
  have hfi : cliFrameInterval 100 = 1 := by
    unfold cliFrameInterval; rw [hr]; exact max_self 1
  have hc : jsCeil ((1000 : ℚ) / (cliFrameInterval 100 : ℚ)) = 1000 := by
    rw [hfi]; exact jsCeil_eq_of _ _ (by norm_num) (by norm_num)
  have he : cliEffectiveMaxFrames 1000 100 (some 0) = 1000 := by
    unfold cliEffectiveMaxFrames
    simpa [hfi] using hc
  refine ⟨he, ?_, by omega⟩
  rw [hc]
  norm_num

/-- C1 amended: for percentage in (0,100] and any supplied nonzero cap,
`effectiveMaxFrames = min(maxFramesCap, ceil(totalFrames/frameInterval))`
and hence is at most the cap; with no cap supplied it equals
`ceil(totalFrames/frameInterval)`. (The original claim, quantifying over
every supplied cap, fails at a supplied cap of 0, which the code's
truthiness test treats as absent.) -/
theorem cliEffectiveMaxFrames_spec (t : ℕ) (p : ℚ) (hp : 0 < p) (hp100 : p ≤ 100) :
    (∀ m : ℤ, m ≠ 0 →
      cliEffectiveMaxFrames t p (some m)
          = min m (jsCeil ((t : ℚ) / (cliFrameInterval p : ℚ))) ∧
        cliEffectiveMaxFrames t p (some m) ≤ m) ∧
      cliEffectiveMaxFrames t p none = jsCeil ((t : ℚ) / (cliFrameInterval p : ℚ)) := by
  refine ⟨fun m hm => ?_, rfl⟩
  constructor
  · simp [cliEffectiveMaxFrames, hm]
  · simp only [cliEffectiveMaxFrames, if_pos hm]
    exact min_le_left _ _

/-- Witness for C1 at totalFrames = 1000, percentage = 100, cap = 50. -/
theorem cliEffectiveMaxFrames_spec_witness :
    0 < (100 : ℚ) ∧ (100 : ℚ) ≤ 100 ∧ (50 : ℤ) ≠ 0 ∧
      (cliEffectiveMaxFrames 1000 100 (some 50)
          = min 50 (jsCeil ((1000 : ℚ) / (cliFrameInterval 100 : ℚ))) ∧
        cliEffectiveMaxFrames 1000 100 (some 50) ≤ 50) :=
  ⟨by norm_num, by norm_num, by norm_num,
    (cliEffectiveMaxFrames_spec 1000 100 (by norm_num) (by norm_num)).1 50 (by norm_num)⟩

/-- C7 counterexample: the claimed SamplingPlan invariants fail for
supplied caps the claim admits. With totalFrames = 10 > 0, percentage =
100 and a supplied cap of -3 (the CLI accepts any number and validates
nothing), effectiveMaxFrames = min(-3, 10) = -3 < 1, refuting
`effectiveMaxFrames >= 1 when totalFrames > 0`; and with totalFrames =
8, percentage = 50 and a supplied cap of 0, effectiveMaxFrames =
ceil(8/2) = 4 > 0, refuting `effectiveMaxFrames <= maxFramesCap`. -/
theorem cliPlan_invariants_cex :
    (0 < (10 : ℕ) ∧ cliEffectiveMaxFrames 10 100 (some (-3)) < 1) ∧
      (cliEffectiveMaxFrames 8 50 (some 0) = 4 ∧ ¬ cliEffectiveMaxFrames 8 50 (some 0) ≤ 0) := by
  constructor
  · refine ⟨by norm_num, ?_⟩
    have : cliEffectiveMaxFrames 10 100 (some (-3))
        ≤ -3 := by
      simp only [cliEffectiveMaxFrames, if_pos (by norm_num : (-3 : ℤ) ≠ 0)]
      exact min_le_left _ _
    omega
  · have hr : jsRound ((100 : ℚ) / 50) = 2 := jsRound_eq_of _ _ (by norm_num) (by norm_num)
    have hfi : cliFrameInterval 50 = 2 := by
      unfold cliFrameInterval; rw [hr]; norm_num
    have hc : jsCeil ((8 : ℚ) / (cliFrameInterval 50 : ℚ)) = 4 := by
      rw [hfi]; exact jsCeil_eq_of _ _ (by norm_num) (by norm_num)
    have he : cliEffectiveMaxFrames 8 50 (some 0) = 4 := by
      unfold cliEffectiveMaxFrames
      simpa [hfi] using hc
    exact ⟨he, by omega⟩

/-- C7 amended: for percentage in (0,100] and any supplied cap that is
at least 1, the SamplingPlan invariants hold: the frame interval is at
least 1, the effective maximum is at least 1 when totalFrames > 0, and
the effective maximum never exceeds the supplied cap. (The original
claim, with no restriction on the supplied cap, fails for caps ≤ 0: a
cap of 0 is treated as absent by the truthiness test and a negative cap
is passed straight through `Math.min`.) -/
theorem cliPlan_invariants (t : ℕ) (p : ℚ) (mf : Option ℤ) (hp : 0 < p) (hp100 : p ≤ 100)
    (hmf : ∀ m, mf = some m → 1 ≤ m) :
    1 ≤ cliFrameInterval p ∧
      (0 < t → 1 ≤ cliEffectiveMaxFrames t p mf) ∧
      (∀ m, mf = some m → cliEffectiveMaxFrames t p mf ≤ m) := by
  have hfi : 1 ≤ cliFrameInterval p := le_max_left _ _
  refine ⟨hfi, fun ht => ?_, fun m hm => ?_⟩
  · have hu : 1 ≤ jsCeil ((t : ℚ) / (cliFrameInterval p : ℚ)) :=
      one_le_jsCeil_frames t _ ht hfi
    match mf, hmf with
    | none, _ => exact hu
    | some m, hmf =>
      have hm1 : 1 ≤ m := hmf m rfl
      simp only [cliEffectiveMaxFrames, if_pos (by omega : m ≠ 0)]
      exact le_min hm1 hu
  · subst hm
    have hm1 : 1 ≤ m := hmf m rfl
    simp only [cliEffectiveMaxFrames, if_pos (by omega : m ≠ 0)]
    exact min_le_left _ _

/-- Witness for C7 at totalFrames = 10, percentage = 100, cap = 5. -/
theorem cliPlan_invariants_witness :
    0 < (100 : ℚ) ∧ (100 : ℚ) ≤ 100 ∧ (∀ m : ℤ, some (5 : ℤ) = some m → 1 ≤ m) ∧
      (1 ≤ cliFrameInterval 100 ∧
        (0 < (10 : ℕ) → 1 ≤ cliEffectiveMaxFrames 10 100 (some 5)) ∧
        (∀ m, some (5 : ℤ) = some m → cliEffectiveMaxFrames 10 100 (some 5) ≤ m)) :=
  ⟨by norm_num, by norm_num, by rintro m ⟨rfl⟩; norm_num,
    cliPlan_invariants 10 100 (some 5) (by norm_num) (by norm_num)
      (by rintro m ⟨rfl⟩; norm_num)⟩

/-- C3: for every inputPath, outputDir and requested frame count, the
server-profile extractor builds exactly the fixed argument list — which
requests `-vframes 200` (positions 2 and 3, directly after
`-i <inputPath>`) and contains no `-vf` frame-selection filter and no
interval logic — independently of the `maxFrames` argument. -/
theorem serverFfmpegArgs_fixed (inputPath outputDir : String) (maxFrames : JsNumber) :
    serverFfmpegArgs inputPath outputDir maxFrames
        = ["-i", inputPath, "-vframes", "200", "-vsync", "0", "-frame_pts", "1",
           "-f", "image2", pathJoin outputDir "frame_%d.jpg"] ∧
      (serverFfmpegArgs inputPath outputDir maxFrames).get? 2 = some "-vframes" ∧
      (serverFfmpegArgs inputPath outputDir maxFrames).get? 3 = some "200" ∧
      (∀ m' : JsNumber, serverFfmpegArgs inputPath outputDir maxFrames
          = serverFfmpegArgs inputPath outputDir m') :=
  ⟨rfl, rfl, rfl, fun _ => rfl⟩

/-- C10: the server-profile `extractFrames` is independent of its
`maxFrames` argument — for any two values (including the NaN the upload
handler can pass as `totalFrames`) it hands ffmpeg the same argument
list and settles its promise identically for every exit code. -/
theorem serverExtractFrames_independent_of_maxFrames
    (inputPath outputDir : String) (m₁ m₂ : JsNumber) (exitCode : ℤ) :
    serverExtractFrames inputPath outputDir m₁ exitCode
      = serverExtractFrames inputPath outputDir m₂ exitCode := rfl

/-- C6 counterexample: with an effective cap of 0 supplied (a known
value — e.g. a video probed to 0 total frames yields
`effectiveMaxFrames = 0`), the CLI extractor's truthiness test skips the
splice, so the argument list carries no `-vframes` pair even though a
cap is known. -/
theorem cliFfmpegArgs_zero_cap_cex :
    cliFfmpegArgs "video.mp4" "out" 3 (some 0)
        = ["-i", "video.mp4", "-vf", selectFilter 3, "-vsync", "0", "-frame_pts", "1",
           "-f", "image2", pathJoin "out" "frame_%d.jpg"] ∧
      "-vframes" ∉ cliFfmpegArgs "video.mp4" "out" 3 (some 0) := by
  refine ⟨rfl, ?_⟩
  show "-vframes" ∉ ["-i", "video.mp4", "-vf", selectFilter 3, "-vsync", "0",
    "-frame_pts", "1", "-f", "image2", pathJoin "out" "frame_%d.jpg"]
  decide

/-- C6 amended: the CLI extractor builds
`-i <inputPath> [-vframes <cap>] -vf select='not(mod(n,<interval>))'
-vsync 0 -frame_pts 1 -f image2 <outputDir>/frame_%d.jpg`, with the
`-vframes <cap>` pair spliced in directly after the input exactly when
the known cap is nonzero. (The original claim said the pair is present
exactly when an effective maximum is known; a known cap of 0 is falsy in
the code's truthiness test, so it produces no pair.) -/
theorem cliFfmpegArgs_spec (inputPath outputDir : String) (frameInterval : ℤ)
    (mf : Option ℤ) :
    (∀ m, mf = some m → m ≠ 0 →
      cliFfmpegArgs inputPath outputDir frameInterval mf
        = ["-i", inputPath, "-vframes", toString m, "-vf", selectFilter frameInterval,
           "-vsync", "0", "-frame_pts", "1", "-f", "image2",
           pathJoin outputDir "frame_%d.jpg"]) ∧
      ((mf = none ∨ mf = some 0) →
        cliFfmpegArgs inputPath outputDir frameInterval mf
          = ["-i", inputPath, "-vf", selectFilter frameInterval,
             "-vsync", "0", "-frame_pts", "1", "-f", "image2",
             pathJoin outputDir "frame_%d.jpg"]) := by
  constructor
  · rintro m rfl hm
    simp only [cliFfmpegArgs, if_pos hm]
    rfl
  · rintro (rfl | rfl)
    · rfl
    · simp only [cliFfmpegArgs, if_neg (by norm_num : ¬ (0 : ℤ) ≠ 0)]

/-- Witness for C6 at a nonzero cap of 7 and interval 2. -/
theorem cliFfmpegArgs_spec_witness :
    cliFfmpegArgs "in.mp4" "frames" 2 (some 7)
      = ["-i", "in.mp4", "-vframes", toString (7 : ℤ), "-vf", selectFilter 2,
         "-vsync", "0", "-frame_pts", "1", "-f", "image2",
         pathJoin "frames" "frame_%d.jpg"] :=
  (cliFfmpegArgs_spec "in.mp4" "frames" 2 (some 7)).1 7 rfl (by norm_num)

/-- C4 counterexample: two different non-zero exit codes of the inspect
subprocess produce literally identical rejections — the fixed message
`Failed to get video information` — so the probe rejection cannot carry
the exit code, refuting the claim that both operations reject with a
rejection carrying that code. -/
theorem probe_reject_code_blind_cex :
    getVideoInfoOnClose 1 (.ok .null) = .rejected "Failed to get video information" ∧
      getVideoInfoOnClose 2 (.ok .null) = .rejected "Failed to get video information" ∧
      getVideoInfoOnClose 1 (.ok .null) = getVideoInfoOnClose 2 (.ok .null) ∧
      (1 : ℤ) ≠ 2 :=
  ⟨rfl, rfl, rfl, by decide⟩

/-- C4 amended: every non-zero exit code of the decode subprocess (CLI
and server) and of the inspect subprocess yields a rejected operation,
never a silent success; the decode rejection's message embeds the exit
code's decimal representation, while the probe rejection is the fixed
message `Failed to get video information`, which does not carry the
code. -/
theorem nonzero_exit_rejects (code : ℤ) (h : code ≠ 0) (parsed : Except Unit JsVal) :
    cliExtractOnClose code
        = .rejected ("ffmpeg process exited with code " ++ toString code) ∧
      serverExtractOnClose code
        = .rejected ("ffmpeg process exited with code " ++ toString code) ∧
      getVideoInfoOnClose code parsed = .rejected "Failed to get video information" := by
  refine ⟨?_, ?_, ?_⟩
  · simp [cliExtractOnClose, h]
  · simp [serverExtractOnClose, h]
  · simp [getVideoInfoOnClose, h]

/-- Witness for C4 at exit code 3. -/
theorem nonzero_exit_rejects_witness :
    (3 : ℤ) ≠ 0 ∧
      (cliExtractOnClose 3
          = .rejected ("ffmpeg process exited with code " ++ toString (3 : ℤ)) ∧
        serverExtractOnClose 3
          = .rejected ("ffmpeg process exited with code " ++ toString (3 : ℤ)) ∧
        getVideoInfoOnClose 3 (.ok .null) = .rejected "Failed to get video information") :=
  ⟨by decide, nonzero_exit_rejects 3 (by decide) (.ok .null)⟩

/-- C5: how `getVideoInfo` actually behaves in the claimed `ProbeError`
cases, evaluated on concrete inputs. Only the non-zero-exit case rejects
(last conjunct). When the inspection process exits cleanly: output that
is not well-formed JSON makes `JSON.parse` throw inside the `close`
handler — an uncaught exception, not a rejection; an empty `streams`
array makes `stream.r_frame_rate` a property access on `undefined` — an
uncaught TypeError; a missing `streams` key makes `info.streams[0]`
index `undefined` — an uncaught TypeError; and an `r_frame_rate` that
cannot be parsed as `num/den` (here `"abc"`) resolves successfully with
a NaN frame rate — a silent success, not a rejection. -/
theorem probe_contract_violations_eval :
    getVideoInfoOnClose 0 (.error ()) = .thrown "SyntaxError: Unexpected token in JSON" ∧
      getVideoInfoOnClose 0 (.ok (.obj [("streams", .arr [])]))
        = .thrown "TypeError: Cannot read properties of undefined (reading r_frame_rate)" ∧
      getVideoInfoOnClose 0 (.ok (.obj []))
        = .thrown "TypeError: Cannot read properties of undefined (reading 0)" ∧
      getVideoInfoOnClose 0
          (.ok (.obj [("streams",
            .arr [.obj [("r_frame_rate", .str "abc"), ("nb_frames", .str "100")]])]))
        = .resolved ⟨.nan, .fin 100⟩ ∧
      getVideoInfoOnClose 2 (.ok (.obj []))
        = .rejected "Failed to get video information" :=
  ⟨rfl, rfl, rfl, rfl, rfl⟩

/-- C8: a frame rate reported with a zero denominator is not treated as
an error — the handler resolves successfully, silently coercing the
division `"30"/"0"` to the numeric value Infinity (`frameRate` is a JS
Number, positive infinity). -/
theorem probe_zero_denominator_eval :
    getVideoInfoOnClose 0
        (.ok (.obj [("streams",
          .arr [.obj [("r_frame_rate", .str "30/0"), ("nb_frames", .str "900")]])]))
      = .resolved ⟨.inf, .fin 900⟩ ∧
    rfrFrameRate "30/0" = .inf :=
  ⟨rfl, rfl⟩

/-- C9: when the inspection process exits cleanly with a well-formed
payload whose first stream has a string `r_frame_rate` but whose
`nb_frames` field is missing or non-numeric (anything `parseInt` turns
into NaN, e.g. the string `"N/A"` or an absent field), the probe
resolves — it does not reject — and the `totalFrames` it reports is
NaN, not an integer. -/
theorem probe_nan_nbFrames_resolves (fields : List (String × JsVal)) (s : String)
    (hr : jsObjGet fields "r_frame_rate" = .str s)
    (hn : jsParseInt (jsObjGet fields "nb_frames") = .nan) :
    getVideoInfoOnClose 0 (.ok (.obj [("streams", .arr [.obj fields])]))
      = .resolved ⟨rfrFrameRate s, .nan⟩ := by
  simp [getVideoInfoOnClose, jsMember, jsIndex, jsObjGet, hr, hn]

/-- Witness for C9 with `r_frame_rate = "30/1"` and `nb_frames = "N/A"`. -/
theorem probe_nan_nbFrames_resolves_witness :
    jsObjGet [("r_frame_rate", JsVal.str "30/1"), ("nb_frames", JsVal.str "N/A")]
        "r_frame_rate" = .str "30/1" ∧
      jsParseInt (jsObjGet [("r_frame_rate", JsVal.str "30/1"), ("nb_frames", JsVal.str "N/A")]
        "nb_frames") = .nan ∧
      getVideoInfoOnClose 0
          (.ok (.obj [("streams",
            .arr [.obj [("r_frame_rate", .str "30/1"), ("nb_frames", .str "N/A")]])]))
        = .resolved ⟨rfrFrameRate "30/1", .nan⟩ :=
  ⟨rfl, rfl, probe_nan_nbFrames_resolves _ _ rfl rfl⟩
